import Mathlib

/-!
Shallow embedding of the proctoring session / event-ingestion core of the
repository (Next.js API routes over MongoDB), together with proofs about it.

The authoritative source is `src/frontend/src/app/api/sessions/route.ts`
(three route modules concatenated in that file):
  * session-collection routes: list (GET), create/save (POST);
  * per-session event routes: submitEvents (POST `[sessionId]/events`),
    getEvents (GET);
  * per-session record routes: get (GET `[sessionId]`), patch (PATCH).
Types come from `src/unnamed/part_000` (`lib/types.ts`); the named scoring
function `calculateIntegrityScore` appears in `src/unnamed/part_003`.

MongoDB is modelled as an explicit in-memory database value: the `sessions`
collection is a list of `ProctorSession` documents and the `events`
collection a list of `DetectionEvent` documents.  `updateOne {sessionId}`
becomes "update the first document in the list whose `sessionId` matches";
`$inc` and `$set` become the corresponding field updates.  The
server-generated random `id` string attached to each inserted event
(`${sessionId}_${Date.now()}_${random}`) is write-only in the source —
it is never read, compared, or used as a deduplication key — so it is
omitted from the model.
-/

/-- Session status, from `ProctorSession.status` in `lib/types.ts`
(`"active" | "completed"`). -/
inductive SessionStatus where
  | active
  | completed
  deriving DecidableEq, Repr

/-- One detection event, from `DetectionEvent` in `lib/types.ts`.
`eventType` is a string in transit (the API performs no validation on it,
which several claims turn on), `confidence` a number, `timestamp` an epoch
instant, `details` an opaque payload.  The optional Mongo `_id` and the
write-only generated `id` are omitted (never read by the code). -/
structure DetectionEvent where
  sessionId : String
  eventType : String
  confidence : ℚ
  timestamp : ℤ
  details : String
  deriving DecidableEq, Repr

/-- One session document, from `ProctorSession` in `lib/types.ts`. -/
structure ProctorSession where
  sessionId : String
  candidateName : String
  startTime : ℤ
  endTime : Option ℤ
  duration : ℕ
  totalEvents : ℕ
  lookingAwayCount : ℕ
  noFaceCount : ℕ
  multipleFaceCount : ℕ
  unauthorizedObjectCount : ℕ
  integrityScore : ℤ
  status : SessionStatus
  events : List DetectionEvent
  deriving DecidableEq, Repr

/-- The per-category counters of the events POST handler's local
`eventCounts` object (route.ts lines 171–176), also the shape of the
cumulative counters held in a session document. -/
structure EventCounts where
  lookingAwayCount : ℕ
  noFaceCount : ℕ
  multipleFaceCount : ℕ
  unauthorizedObjectCount : ℕ
  deriving DecidableEq, Repr

/-- The cumulative counters stored in a session document, as an
`EventCounts` tuple. -/
def countersOf (s : ProctorSession) : EventCounts :=
  ⟨s.lookingAwayCount, s.noFaceCount, s.multipleFaceCount, s.unauthorizedObjectCount⟩

/-- Componentwise sum of two counter tuples. -/
def addCounts (a b : EventCounts) : EventCounts :=
  ⟨a.lookingAwayCount + b.lookingAwayCount,
   a.noFaceCount + b.noFaceCount,
   a.multipleFaceCount + b.multipleFaceCount,
   a.unauthorizedObjectCount + b.unauthorizedObjectCount⟩

/-- The closed event-type taxonomy of `DetectionEvent.eventType` in
`lib/types.ts`. -/
def eventTaxonomy : List String :=
  ["looking_away", "no_face", "multiple_faces", "unauthorized_object"]

/-- One step of the `events.forEach(... switch (event.eventType) ...)` tally
in the events POST handler (route.ts lines 178–193): the matching counter is
incremented; an event type with no `case` falls through and changes
nothing. -/
def countEvent (c : EventCounts) (e : DetectionEvent) : EventCounts :=
  if e.eventType = "looking_away" then
    { c with lookingAwayCount := c.lookingAwayCount + 1 }
  else if e.eventType = "no_face" then
    { c with noFaceCount := c.noFaceCount + 1 }
  else if e.eventType = "multiple_faces" then
    { c with multipleFaceCount := c.multipleFaceCount + 1 }
  else if e.eventType = "unauthorized_object" then
    { c with unauthorizedObjectCount := c.unauthorizedObjectCount + 1 }
  else c

/-- The whole `events.forEach` tally: per-category counts of one batch. -/
def tallyEvents (events : List DetectionEvent) : EventCounts :=
  events.foldl countEvent ⟨0, 0, 0, 0⟩

/-- The integrity-score formula: `Math.max(0, 100 - (lookingAway*2 +
noFace*3 + multipleFaces*10 + unauthorizedObjects*15))`.  This is
`calculateIntegrityScore` of `src/unnamed/part_003` (lines 171–180) and,
verbatim, the inline `baseScore`/`deductions` computation of the events
POST handler (route.ts lines 195–203). -/
def calculateIntegrityScore (c : EventCounts) : ℤ :=
  max 0 (100 - ((c.lookingAwayCount : ℤ) * 2 + (c.noFaceCount : ℤ) * 3 +
    (c.multipleFaceCount : ℤ) * 10 + (c.unauthorizedObjectCount : ℤ) * 15))

/-- The in-memory model of the MongoDB database: the `sessions` collection
and the `events` collection. -/
structure DB where
  sessions : List ProctorSession
  events : List DetectionEvent
  deriving DecidableEq, Repr

/-- `db.collection("sessions").findOne({ sessionId })`: first document whose
`sessionId` matches, if any. -/
def findSession (sessions : List ProctorSession) (sid : String) :
    Option ProctorSession :=
  sessions.find? (fun s => s.sessionId = sid)

/-- `db.collection("sessions").updateOne({ sessionId }, ...)`: apply the
update to the first matching document, leaving the rest unchanged (and doing
nothing when no document matches — `updateOne` without `upsert` never
inserts). -/
def updateSession (sessions : List ProctorSession) (sid : String)
    (f : ProctorSession → ProctorSession) : List ProctorSession :=
  match sessions with
  | [] => []
  | s :: rest =>
      if s.sessionId = sid then f s :: rest
      else s :: updateSession rest sid f

/-- The `$inc`/`$set` update document of the events POST handler
(route.ts lines 206–218): `$inc` adds the batch length to `totalEvents` and
the batch tallies to the four counters; `$set` overwrites `integrityScore`
with the freshly computed value. -/
def applyEventsUpdate (n : ℕ) (c : EventCounts) (score : ℤ)
    (s : ProctorSession) : ProctorSession :=
  { s with
    totalEvents := s.totalEvents + n,
    lookingAwayCount := s.lookingAwayCount + c.lookingAwayCount,
    noFaceCount := s.noFaceCount + c.noFaceCount,
    multipleFaceCount := s.multipleFaceCount + c.multipleFaceCount,
    unauthorizedObjectCount := s.unauthorizedObjectCount + c.unauthorizedObjectCount,
    integrityScore := score }

/-- The request body of the events POST route: either a parsed JSON array of
events, or anything that is not an array (`!Array.isArray(events)`). -/
inductive EventsBody where
  | arr (events : List DetectionEvent)
  | malformed
  deriving DecidableEq, Repr

/-- The response of the events POST route, as seen by the caller. -/
inductive PostEventsResult where
  /-- A 4xx rejection with its error string (route.ts lines 150–155). -/
  | rejected (status : ℕ) (error : String)
  /-- The 200 body `{ success, eventsAdded, integrityScore }`
  (route.ts lines 220–224). -/
  | accepted (eventsAdded : ℕ) (integrityScore : ℤ)
  deriving DecidableEq, Repr

/-- `submitEvents`: the POST handler of `[sessionId]/events`
(route.ts lines 142–232).  Steps, in source order:
1. reject with 400 `"Invalid events data"` unless the body is a non-empty
   array (line 150);
2. stamp every event with the route's `sessionId` and insert the whole
   batch into the `events` collection (lines 160–168) — no per-event
   validation of `eventType` or `confidence`, no deduplication;
3. tally the batch's per-category counts (lines 171–193);
4. compute the score from the batch tallies alone, starting from
   `baseScore = 100` (lines 195–203);
5. `updateOne` the session: `$inc` the counters by the batch tallies and
   `$set` `integrityScore` to the batch-only score (lines 206–218);
6. respond `{ eventsAdded, integrityScore }`. -/
def postEvents (db : DB) (sid : String) (body : EventsBody) :
    DB × PostEventsResult :=
  match body with
  | .malformed => (db, .rejected 400 "Invalid events data")
  | .arr events =>
      if events.length = 0 then
        (db, .rejected 400 "Invalid events data")
      else
        let stamped := events.map (fun e => { e with sessionId := sid })
        let counts := tallyEvents events
        let score := calculateIntegrityScore counts
        ({ sessions := updateSession db.sessions sid
             (applyEventsUpdate events.length counts score),
           events := db.events ++ stamped },
         .accepted events.length score)

/-- The response of the per-session GET route. -/
inductive GetSessionResult where
  /-- 404 `"Session not found"` (route.ts lines 277–282). -/
  | notFound
  | found (s : ProctorSession)
  deriving DecidableEq, Repr

/-- `get(sessionId)`: the GET handler of `[sessionId]`
(route.ts lines 265–298): `findOne({ sessionId })`, 404 when absent.  The
database is returned unchanged — the handler only reads. -/
def getSession (db : DB) (sid : String) : DB × GetSessionResult :=
  match findSession db.sessions sid with
  | none => (db, .notFound)
  | some s => (db, .found s)

/-- The partial fields a PATCH body may carry (the handler spreads
`...updates` into `$set`; the fields the repository's client actually
patches are the lifecycle ones below).  `none` = field absent from the
body. -/
structure PatchFields where
  candidateName : Option String
  endTime : Option ℤ
  duration : Option ℕ
  integrityScore : Option ℤ
  status : Option SessionStatus
  deriving DecidableEq, Repr

/-- The `$set { ...updates }` merge of the PATCH handler
(route.ts lines 309–317): present fields overwrite, absent fields are kept. -/
def applyPatch (p : PatchFields) (s : ProctorSession) : ProctorSession :=
  { s with
    candidateName := p.candidateName.getD s.candidateName,
    endTime := match p.endTime with | some t => some t | none => s.endTime,
    duration := p.duration.getD s.duration,
    integrityScore := p.integrityScore.getD s.integrityScore,
    status := p.status.getD s.status }

/-- The response of the PATCH route. -/
inductive PatchResult where
  /-- 404 `"Session not found"` when `matchedCount === 0`
  (route.ts lines 319–324). -/
  | notFound
  | ok
  deriving DecidableEq, Repr

/-- `patch(sessionId, partialFields)`: the PATCH handler of `[sessionId]`
(route.ts lines 300–334): `updateOne({ sessionId }, { $set ... })` without
`upsert`, then 404 when `matchedCount === 0`.  When no document matches,
the `updateOne` modifies nothing and nothing is inserted. -/
def patchSession (db : DB) (sid : String) (p : PatchFields) :
    DB × PatchResult :=
  if (findSession db.sessions sid).isSome then
    ({ db with sessions := updateSession db.sessions sid (applyPatch p) }, .ok)
  else
    (db, .notFound)

/-- A freshly created session, as built by the session-creation POST handler
(route.ts lines 50–63): zero counters, score 100, status active, empty
embedded event list. -/
def newSession (sid name : String) (startTime : ℤ) : ProctorSession :=
  { sessionId := sid, candidateName := name, startTime := startTime,
    endTime := none, duration := 0, totalEvents := 0,
    lookingAwayCount := 0, noFaceCount := 0, multipleFaceCount := 0,
    unauthorizedObjectCount := 0, integrityScore := 100,
    status := .active, events := [] }

/-! ### Concrete documents used in witnesses and counterexamples -/

/-- A fresh session named Alice, as session-start creates it. -/
def dbAlice : DB := ⟨[newSession "s1" "Alice" 0], []⟩

/-- A `looking_away` event with confidence 0.9 (spec Scenario A). -/
def exampleLookingAway : DetectionEvent :=
  { sessionId := "s1", eventType := "looking_away", confidence := 9 / 10,
    timestamp := 1, details := "gaze" }

/-- A second, distinct `looking_away` event (later timestamp). -/
def exampleLookingAway2 : DetectionEvent :=
  { sessionId := "s1", eventType := "looking_away", confidence := 1,
    timestamp := 2, details := "gaze" }

/-- An event whose type is outside the taxonomy (spec Scenario C). -/
def exampleTalking : DetectionEvent :=
  { sessionId := "s1", eventType := "talking", confidence := 1,
    timestamp := 3, details := "" }

/-- An event failing both validation rules the spec demands: unknown type
and confidence outside [0,1]. -/
def exampleBadEvent : DetectionEvent :=
  { sessionId := "s1", eventType := "talking", confidence := 2,
    timestamp := 4, details := "" }

/-- A completed session whose stored score 83 matches its counters
(1 looking_away, 1 unauthorized_object: 100 − 2 − 15). -/
def completedSession : ProctorSession :=
  { sessionId := "s2", candidateName := "Bob", startTime := 0,
    endTime := some 100, duration := 100, totalEvents := 2,
    lookingAwayCount := 1, noFaceCount := 0, multipleFaceCount := 0,
    unauthorizedObjectCount := 1, integrityScore := 83,
    status := .completed, events := [] }

/-! ### General lemmas about the embedded operations -/

/-- `updateOne` then `findOne` on the same `sessionId`: the looked-up
document is the updated one (field updates never change `sessionId`). -/
theorem findSession_updateSession (sessions : List ProctorSession)
    (sid : String) (f : ProctorSession → ProctorSession)
    (hf : ∀ s, (f s).sessionId = s.sessionId) :
    findSession (updateSession sessions sid f) sid =
      (findSession sessions sid).map f := by
  induction sessions with
  | nil => rfl
  | cons s rest ih =>
      by_cases h : s.sessionId = sid
      · simp [findSession, updateSession, h, List.find?_cons, hf s]
      · simpa [findSession, updateSession, h, List.find?_cons] using ih

/-- The events POST handler on a non-empty array, unfolded: insert the
stamped batch, `$inc` the counters by the batch tallies, `$set` the score
to the batch-only score, answer `{ eventsAdded, integrityScore }`. -/
theorem postEvents_arr (db : DB) (sid : String)
    (events : List DetectionEvent) (hne : events ≠ []) :
    postEvents db sid (.arr events) =
      ({ sessions := updateSession db.sessions sid
           (applyEventsUpdate events.length (tallyEvents events)
             (calculateIntegrityScore (tallyEvents events))),
         events := db.events ++ events.map (fun e => { e with sessionId := sid }) },
       .accepted events.length
         (calculateIntegrityScore (tallyEvents events))) := by
  have hlen : ¬ events.length = 0 := by
    simpa [List.length_eq_zero] using hne
  simp [postEvents, hlen]

/-- The `$inc`/`$set` update leaves `sessionId` unchanged. -/
theorem applyEventsUpdate_sessionId (n : ℕ) (c : EventCounts) (score : ℤ)
    (s : ProctorSession) :
    (applyEventsUpdate n c score s).sessionId = s.sessionId := rfl

/-- Looking up the target session after a non-empty batch was posted:
the stored document is the old one with counters `$inc`-ed by the batch
tallies and the score `$set` to the batch-only score. -/
theorem findSession_postEvents (db : DB) (sid : String)
    (events : List DetectionEvent) (hne : events ≠ []) :
    findSession (postEvents db sid (.arr events)).1.sessions sid =
      (findSession db.sessions sid).map
        (applyEventsUpdate events.length (tallyEvents events)
          (calculateIntegrityScore (tallyEvents events))) := by
  rw [postEvents_arr _ _ _ hne]
  exact findSession_updateSession _ _ _ (fun s => rfl)

/-- The `$inc` part adds the batch tallies to the stored counters. -/
theorem countersOf_applyEventsUpdate (n : ℕ) (c : EventCounts) (score : ℤ)
    (s : ProctorSession) :
    countersOf (applyEventsUpdate n c score s) = addCounts (countersOf s) c := rfl

/-- An event whose type has no `case` in the tally switch changes no
counter. -/
theorem countEvent_of_unknown (c : EventCounts) (e : DetectionEvent)
    (h : e.eventType ∉ eventTaxonomy) : countEvent c e = c := by
  simp only [eventTaxonomy, List.mem_cons, List.not_mem_nil, or_false,
    not_or] at h
  obtain ⟨h1, h2, h3, h4⟩ := h
  simp [countEvent, h1, h2, h3, h4]

/-- A batch of only unknown-type events tallies to zero in every
category. -/
theorem tallyEvents_of_unknown (events : List DetectionEvent)
    (h : ∀ e ∈ events, e.eventType ∉ eventTaxonomy) :
    tallyEvents events = ⟨0, 0, 0, 0⟩ := by
  have key : ∀ c : EventCounts, events.foldl countEvent c = c := by
    induction events with
    | nil => intro c; rfl
    | cons e rest ih =>
        intro c
        have := countEvent_of_unknown c e (h e (by simp))
        simp only [List.foldl_cons, this]
        exact ih (fun x hx => h x (by simp [hx])) c
  exact key _

/-! ### Claims -/

/-- C6: The integrity score is computed as
`score(counts) = max(0, 100 − (2·lookingAway + 3·noFace + 10·multipleFaces +
15·unauthorizedObjects))`; in particular a fresh session (all counters
zero), after one accepted `looking_away` event, has stored score 98. -/
theorem C6_score_formula_and_fresh_looking_away
    (sid name : String) (t0 : ℤ) (e : DetectionEvent)
    (he : e.eventType = "looking_away") :
    (∀ c : EventCounts, calculateIntegrityScore c =
      max 0 (100 - (2 * (c.lookingAwayCount : ℤ) + 3 * (c.noFaceCount : ℤ) +
        10 * (c.multipleFaceCount : ℤ) + 15 * (c.unauthorizedObjectCount : ℤ)))) ∧
    (findSession (postEvents ⟨[newSession sid name t0], []⟩ sid
        (.arr [e])).1.sessions sid).map (fun s => s.integrityScore) =
      some 98 := by
  constructor
  · intro c
    unfold calculateIntegrityScore
    congr 1
    ring
  · rw [findSession_postEvents _ _ _ (by simp)]
    have ht : tallyEvents [e] = ⟨1, 0, 0, 0⟩ := by
      simp [tallyEvents, countEvent, he]
    simp only [ht]
    simp [findSession, newSession, applyEventsUpdate, calculateIntegrityScore]

/-- Witness for C6: session "s1" for Alice, one `looking_away` event with
confidence 0.9 (spec Scenario A). -/
theorem C6_witness :
    exampleLookingAway.eventType = "looking_away" ∧
    ((∀ c : EventCounts, calculateIntegrityScore c =
      max 0 (100 - (2 * (c.lookingAwayCount : ℤ) + 3 * (c.noFaceCount : ℤ) +
        10 * (c.multipleFaceCount : ℤ) + 15 * (c.unauthorizedObjectCount : ℤ)))) ∧
    (findSession (postEvents ⟨[newSession "s1" "Alice" 0], []⟩ "s1"
        (.arr [exampleLookingAway])).1.sessions "s1").map
      (fun s => s.integrityScore) = some 98) :=
  ⟨rfl, C6_score_formula_and_fresh_looking_away "s1" "Alice" 0
    exampleLookingAway rfl⟩

/-- C8: for all non-negative counter tuples, the score is deterministic (a
pure function of the tuple), lies in [0, 100], and is non-increasing when
any count increases (pointwise larger tuples score no higher). -/
theorem C8_score_bounded_and_antitone (c c' : EventCounts)
    (h1 : c.lookingAwayCount ≤ c'.lookingAwayCount)
    (h2 : c.noFaceCount ≤ c'.noFaceCount)
    (h3 : c.multipleFaceCount ≤ c'.multipleFaceCount)
    (h4 : c.unauthorizedObjectCount ≤ c'.unauthorizedObjectCount) :
    0 ≤ calculateIntegrityScore c ∧ calculateIntegrityScore c ≤ 100 ∧
      calculateIntegrityScore c' ≤ calculateIntegrityScore c := by
  unfold calculateIntegrityScore
  refine ⟨le_max_left _ _, ?_, ?_⟩
  · exact max_le (by norm_num) (by omega)
  · exact max_le_max le_rfl (by omega)

/-- Witness for C8 at the tuples (0,0,0,0) ≤ (1,0,0,0). -/
theorem C8_witness :
    (EventCounts.mk 0 0 0 0).lookingAwayCount ≤
      (EventCounts.mk 1 0 0 0).lookingAwayCount ∧
    (0 ≤ calculateIntegrityScore ⟨0, 0, 0, 0⟩ ∧
      calculateIntegrityScore ⟨0, 0, 0, 0⟩ ≤ 100 ∧
      calculateIntegrityScore ⟨1, 0, 0, 0⟩ ≤
        calculateIntegrityScore ⟨0, 0, 0, 0⟩) :=
  ⟨by decide, C8_score_bounded_and_antitone ⟨0, 0, 0, 0⟩ ⟨1, 0, 0, 0⟩
    (by decide) (by decide) (by decide) (by decide)⟩

/-- C9: for a `sessionId` with no stored record, both the per-session GET
and the PATCH answer "Session not found" (404), and both leave the whole
database unchanged — in particular neither creates a session. -/
theorem C9_unknown_session_not_found (db : DB) (sid : String)
    (p : PatchFields) (h : findSession db.sessions sid = none) :
    getSession db sid = (db, .notFound) ∧
    patchSession db sid p = (db, .notFound) := by
  constructor
  · simp [getSession, h]
  · simp [patchSession, h]

/-- Witness for C9: database holding only session "s1", looked up and
patched under the unknown id "zzz". -/
theorem C9_witness :
    findSession dbAlice.sessions "zzz" = none ∧
    (getSession dbAlice "zzz" = (dbAlice, .notFound) ∧
     patchSession dbAlice "zzz" ⟨none, none, none, none, none⟩ =
       (dbAlice, .notFound)) :=
  ⟨by decide, C9_unknown_session_not_found dbAlice "zzz"
    ⟨none, none, none, none, none⟩ (by decide)⟩

/-- Adding a zero tally changes no counter. -/
theorem addCounts_zero (c : EventCounts) : addCounts c ⟨0, 0, 0, 0⟩ = c := rfl

/-- Folding two tallies into the counters in either order gives the same
counters. -/
theorem addCounts_right_comm (a b c : EventCounts) :
    addCounts (addCounts a b) c = addCounts (addCounts a c) b := by
  simp only [addCounts, EventCounts.mk.injEq]
  omega

/-- C1 (refuted by the code): after each accepted batch the stored
`integrityScore` would equal the score of the cumulative counters.  On the
failing input — two successive one-event `looking_away` batches to a fresh
session — the stored score is 98 (the score of the second batch alone),
while the cumulative counters read 2 `looking_away`, whose score is 96:
the `$set` at route.ts line 216 writes a score computed from the current
batch only (lines 195–203), even though the counters are `$inc`-ed
cumulatively. -/
theorem C1_stored_score_ignores_cumulative_counters :
    (findSession ((postEvents ((postEvents dbAlice "s1"
        (.arr [exampleLookingAway])).1) "s1"
        (.arr [exampleLookingAway2])).1).sessions "s1").map
      (fun s => (s.lookingAwayCount, s.integrityScore,
        calculateIntegrityScore (countersOf s))) = some (2, 98, 96) := by
  decide

/-- C2 (counterexample): submitting the identical event twice is counted
twice, not once — after both submissions of the same `looking_away` event
the counter and `totalEvents` are 2, refuting "change exactly once across
both submissions". -/
theorem C2_counterexample :
    (findSession ((postEvents ((postEvents dbAlice "s1"
        (.arr [exampleLookingAway])).1) "s1"
        (.arr [exampleLookingAway])).1).sessions "s1").map
      (fun s => (s.lookingAwayCount, s.totalEvents)) = some (2, 2) ∧
    ¬ (findSession ((postEvents ((postEvents dbAlice "s1"
        (.arr [exampleLookingAway])).1) "s1"
        (.arr [exampleLookingAway])).1).sessions "s1").map
      (fun s => (s.lookingAwayCount, s.totalEvents)) = some (1, 1) := by
  constructor <;> decide

/-- C2 (amended): ingestion performs no deduplication — every accepted
submission of an event, identical to an earlier one or not, adds its full
contribution again: after resubmitting the same single-event batch, the
matching counter and `totalEvents` have been incremented twice. -/
theorem C2_no_dedup_double_count (db : DB) (sid : String)
    (e : DetectionEvent) (s : ProctorSession)
    (hs : findSession db.sessions sid = some s) :
    ∃ s1 s2,
      findSession (postEvents db sid (.arr [e])).1.sessions sid = some s1 ∧
      findSession (postEvents (postEvents db sid (.arr [e])).1 sid
          (.arr [e])).1.sessions sid = some s2 ∧
      s1.totalEvents = s.totalEvents + 1 ∧
      s2.totalEvents = s.totalEvents + 2 ∧
      countersOf s1 = addCounts (countersOf s) (tallyEvents [e]) ∧
      countersOf s2 = addCounts (addCounts (countersOf s) (tallyEvents [e]))
        (tallyEvents [e]) := by
  have h1 := findSession_postEvents db sid [e] (by simp)
  rw [hs, Option.map_some'] at h1
  have h2 := findSession_postEvents (postEvents db sid (.arr [e])).1 sid [e]
    (by simp)
  rw [h1, Option.map_some'] at h2
  refine ⟨_, _, h1, h2, ?_, ?_, rfl, rfl⟩
  · simp [applyEventsUpdate]
  · simp [applyEventsUpdate]

/-- Witness for C2's amended theorem: the same `looking_away` event
submitted twice to Alice's fresh session. -/
theorem C2_witness :
    findSession dbAlice.sessions "s1" = some (newSession "s1" "Alice" 0) ∧
    (∃ s1 s2,
      findSession (postEvents dbAlice "s1"
          (.arr [exampleLookingAway])).1.sessions "s1" = some s1 ∧
      findSession (postEvents (postEvents dbAlice "s1"
          (.arr [exampleLookingAway])).1 "s1"
          (.arr [exampleLookingAway])).1.sessions "s1" = some s2 ∧
      s1.totalEvents = (newSession "s1" "Alice" 0).totalEvents + 1 ∧
      s2.totalEvents = (newSession "s1" "Alice" 0).totalEvents + 2 ∧
      countersOf s1 = addCounts (countersOf (newSession "s1" "Alice" 0))
        (tallyEvents [exampleLookingAway]) ∧
      countersOf s2 = addCounts (addCounts
        (countersOf (newSession "s1" "Alice" 0))
        (tallyEvents [exampleLookingAway]))
        (tallyEvents [exampleLookingAway])) :=
  ⟨by decide, C2_no_dedup_double_count dbAlice "s1" exampleLookingAway
    (newSession "s1" "Alice" 0) (by decide)⟩

/-- C3 (counterexample): a completed session (counters (1,0,0,1), stored
score 83) receives one more `looking_away` event; the claim says counters
and score keep their pre-end values (1 and 83), but the code answers
counter 2 and score 98. -/
theorem C3_counterexample :
    (findSession (postEvents ⟨[completedSession], []⟩ "s2"
        (.arr [exampleLookingAway])).1.sessions "s2").map
      (fun s => (s.lookingAwayCount, s.integrityScore)) = some (2, 98) ∧
    ¬ (findSession (postEvents ⟨[completedSession], []⟩ "s2"
        (.arr [exampleLookingAway])).1.sessions "s2").map
      (fun s => (s.lookingAwayCount, s.integrityScore)) = some (1, 83) := by
  constructor <;> decide

/-- C3 (amended): ingestion never inspects the session's status — events
submitted to a completed session are appended to the event log AND still
increment the counters and overwrite `integrityScore`, exactly as for an
active session. -/
theorem C3_completed_session_still_mutated (db : DB) (sid : String)
    (events : List DetectionEvent) (s : ProctorSession) (hne : events ≠ [])
    (hs : findSession db.sessions sid = some s)
    (hc : s.status = .completed) :
    (postEvents db sid (.arr events)).1.events =
      db.events ++ events.map (fun e => { e with sessionId := sid }) ∧
    ∃ s', findSession (postEvents db sid (.arr events)).1.sessions sid =
        some s' ∧
      s'.status = .completed ∧
      countersOf s' = addCounts (countersOf s) (tallyEvents events) ∧
      s'.totalEvents = s.totalEvents + events.length ∧
      s'.integrityScore = calculateIntegrityScore (tallyEvents events) := by
  constructor
  · rw [postEvents_arr _ _ _ hne]
  · have h1 := findSession_postEvents db sid events hne
    rw [hs, Option.map_some'] at h1
    refine ⟨_, h1, ?_, rfl, rfl, rfl⟩
    simpa [applyEventsUpdate] using hc

/-- Witness for C3's amended theorem: Bob's completed session receives one
more `looking_away` event. -/
theorem C3_witness :
    ([exampleLookingAway] ≠ ([] : List DetectionEvent)) ∧
    findSession (DB.mk [completedSession] []).sessions "s2" =
      some completedSession ∧
    completedSession.status = .completed ∧
    ((postEvents ⟨[completedSession], []⟩ "s2"
        (.arr [exampleLookingAway])).1.events =
      ([] : List DetectionEvent) ++ [exampleLookingAway].map
        (fun e => { e with sessionId := "s2" }) ∧
    ∃ s', findSession (postEvents ⟨[completedSession], []⟩ "s2"
        (.arr [exampleLookingAway])).1.sessions "s2" = some s' ∧
      s'.status = .completed ∧
      countersOf s' = addCounts (countersOf completedSession)
        (tallyEvents [exampleLookingAway]) ∧
      s'.totalEvents = completedSession.totalEvents +
        [exampleLookingAway].length ∧
      s'.integrityScore =
        calculateIntegrityScore (tallyEvents [exampleLookingAway])) :=
  ⟨by decide, by decide, rfl,
    C3_completed_session_still_mutated ⟨[completedSession], []⟩ "s2"
      [exampleLookingAway] completedSession (by decide) (by decide) rfl⟩

/-- C4 (counterexample): an event with `eventType = "talking"` (spec
Scenario C) is not rejected — submitting it alone yields a 200 acceptance
with `eventsAdded = 1`, and the session's `totalEvents` rises to 1. -/
theorem C4_counterexample :
    (postEvents dbAlice "s1" (.arr [exampleTalking])).2 =
      .accepted 1 100 ∧
    (findSession (postEvents dbAlice "s1"
        (.arr [exampleTalking])).1.sessions "s1").map
      (fun s => s.totalEvents) = some 1 := by
  constructor <;> decide

/-- C4 (amended): an event whose `eventType` is outside the closed
taxonomy is silently accepted, never rejected: the batch succeeds, the
event is inserted into the event log and counted in `totalEvents`; only
the four per-category counters ignore it (the tally switch has no case for
it). -/
theorem C4_unknown_type_accepted (db : DB) (sid : String)
    (e : DetectionEvent) (s : ProctorSession)
    (hunk : e.eventType ∉ eventTaxonomy)
    (hs : findSession db.sessions sid = some s) :
    (postEvents db sid (.arr [e])).2 = .accepted 1 100 ∧
    (postEvents db sid (.arr [e])).1.events =
      db.events ++ [{ e with sessionId := sid }] ∧
    ∃ s', findSession (postEvents db sid (.arr [e])).1.sessions sid =
        some s' ∧
      s'.totalEvents = s.totalEvents + 1 ∧
      countersOf s' = countersOf s := by
  have ht : tallyEvents [e] = ⟨0, 0, 0, 0⟩ :=
    tallyEvents_of_unknown [e] (by simpa using hunk)
  have h1 := findSession_postEvents db sid [e] (by simp)
  rw [hs, Option.map_some'] at h1
  refine ⟨?_, ?_, _, h1, ?_, ?_⟩
  · rw [postEvents_arr _ _ _ (by simp), ht]
    rfl
  · rw [postEvents_arr _ _ _ (by simp)]
    rfl
  · simp [applyEventsUpdate]
  · rw [countersOf_applyEventsUpdate, ht, addCounts_zero]

/-- Witness for C4's amended theorem: the "talking" event of Scenario C
submitted to Alice's fresh session. -/
theorem C4_witness :
    exampleTalking.eventType ∉ eventTaxonomy ∧
    findSession dbAlice.sessions "s1" = some (newSession "s1" "Alice" 0) ∧
    ((postEvents dbAlice "s1" (.arr [exampleTalking])).2 =
      .accepted 1 100 ∧
    (postEvents dbAlice "s1" (.arr [exampleTalking])).1.events =
      dbAlice.events ++ [{ exampleTalking with sessionId := "s1" }] ∧
    ∃ s', findSession (postEvents dbAlice "s1"
        (.arr [exampleTalking])).1.sessions "s1" = some s' ∧
      s'.totalEvents = (newSession "s1" "Alice" 0).totalEvents + 1 ∧
      countersOf s' = countersOf (newSession "s1" "Alice" 0)) :=
  ⟨by decide, by decide,
    C4_unknown_type_accepted dbAlice "s1" exampleTalking
      (newSession "s1" "Alice" 0) (by decide) (by decide)⟩

/-- C5 (counterexample): a batch holding a valid `looking_away` event
together with an event failing both validation rules (unknown type
"talking", confidence 2 ∉ [0,1]) is not rejected as a whole — the code
accepts it with `eventsAdded = 2` and records both events. -/
theorem C5_counterexample :
    (postEvents dbAlice "s1"
        (.arr [exampleLookingAway, exampleBadEvent])).2 =
      .accepted 2 98 ∧
    ((postEvents dbAlice "s1"
        (.arr [exampleLookingAway, exampleBadEvent])).1.events).length = 2 := by
  constructor <;> decide

/-- C5 (amended): `submitEvents` fails `InvalidInput` exactly when the
body is not a non-empty array (then nothing is recorded and nothing
changes); events inside a non-empty batch undergo no individual
validation — the whole batch is always accepted, whatever its event types
and confidences. -/
theorem C5_only_shape_validated (db : DB) (sid : String)
    (events : List DetectionEvent) (hne : events ≠ []) :
    postEvents db sid .malformed =
      (db, .rejected 400 "Invalid events data") ∧
    postEvents db sid (.arr []) =
      (db, .rejected 400 "Invalid events data") ∧
    (postEvents db sid (.arr events)).2 =
      .accepted events.length
        (calculateIntegrityScore (tallyEvents events)) := by
  refine ⟨rfl, rfl, ?_⟩
  rw [postEvents_arr _ _ _ hne]

/-- Witness for C5's amended theorem: the invalid event of the
counterexample forms the non-empty batch. -/
theorem C5_witness :
    ([exampleBadEvent] ≠ ([] : List DetectionEvent)) ∧
    (postEvents dbAlice "s1" .malformed =
      (dbAlice, .rejected 400 "Invalid events data") ∧
    postEvents dbAlice "s1" (.arr []) =
      (dbAlice, .rejected 400 "Invalid events data") ∧
    (postEvents dbAlice "s1" (.arr [exampleBadEvent])).2 =
      .accepted [exampleBadEvent].length
        (calculateIntegrityScore (tallyEvents [exampleBadEvent]))) :=
  ⟨by decide, C5_only_shape_validated dbAlice "s1" [exampleBadEvent]
    (by decide)⟩

/-- C7: applying two batches for the same session in either order yields
the same final counters — the prior counters plus the sum of both batches'
tallies (the update is an additive `$inc`, not an overwrite) — and the
same `totalEvents`. -/
theorem C7_batch_order_counters_commute (db : DB) (sid : String)
    (b1 b2 : List DetectionEvent) (s : ProctorSession)
    (h1 : b1 ≠ []) (h2 : b2 ≠ [])
    (hs : findSession db.sessions sid = some s) :
    ∃ sA sB,
      findSession (postEvents (postEvents db sid (.arr b1)).1 sid
          (.arr b2)).1.sessions sid = some sA ∧
      findSession (postEvents (postEvents db sid (.arr b2)).1 sid
          (.arr b1)).1.sessions sid = some sB ∧
      countersOf sA = countersOf sB ∧
      countersOf sA = addCounts (countersOf s)
        (addCounts (tallyEvents b1) (tallyEvents b2)) ∧
      sA.totalEvents = s.totalEvents + (b1.length + b2.length) ∧
      sB.totalEvents = s.totalEvents + (b1.length + b2.length) := by
  have hA1 := findSession_postEvents db sid b1 h1
  rw [hs, Option.map_some'] at hA1
  have hA2 := findSession_postEvents (postEvents db sid (.arr b1)).1 sid b2 h2
  rw [hA1, Option.map_some'] at hA2
  have hB1 := findSession_postEvents db sid b2 h2
  rw [hs, Option.map_some'] at hB1
  have hB2 := findSession_postEvents (postEvents db sid (.arr b2)).1 sid b1 h1
  rw [hB1, Option.map_some'] at hB2
  refine ⟨_, _, hA2, hB2, ?_, ?_, ?_, ?_⟩
  · simp only [countersOf_applyEventsUpdate]
    exact addCounts_right_comm _ _ _
  · simp only [countersOf_applyEventsUpdate, addCounts,
      EventCounts.mk.injEq]
    omega
  · simp only [applyEventsUpdate]
    omega
  · simp only [applyEventsUpdate]
    omega

/-- Witness for C7: the batches `[looking_away]` and `[looking_away₂]`
posted to Alice's fresh session in both orders. -/
theorem C7_witness :
    ([exampleLookingAway] ≠ ([] : List DetectionEvent)) ∧
    ([exampleLookingAway2] ≠ ([] : List DetectionEvent)) ∧
    findSession dbAlice.sessions "s1" = some (newSession "s1" "Alice" 0) ∧
    (∃ sA sB,
      findSession (postEvents (postEvents dbAlice "s1"
          (.arr [exampleLookingAway])).1 "s1"
          (.arr [exampleLookingAway2])).1.sessions "s1" = some sA ∧
      findSession (postEvents (postEvents dbAlice "s1"
          (.arr [exampleLookingAway2])).1 "s1"
          (.arr [exampleLookingAway])).1.sessions "s1" = some sB ∧
      countersOf sA = countersOf sB ∧
      countersOf sA = addCounts (countersOf (newSession "s1" "Alice" 0))
        (addCounts (tallyEvents [exampleLookingAway])
          (tallyEvents [exampleLookingAway2])) ∧
      sA.totalEvents = (newSession "s1" "Alice" 0).totalEvents +
        ([exampleLookingAway].length + [exampleLookingAway2].length) ∧
      sB.totalEvents = (newSession "s1" "Alice" 0).totalEvents +
        ([exampleLookingAway].length + [exampleLookingAway2].length)) :=
  ⟨by decide, by decide, by decide,
    C7_batch_order_counters_commute dbAlice "s1" [exampleLookingAway]
      [exampleLookingAway2] (newSession "s1" "Alice" 0)
      (by decide) (by decide) (by decide)⟩

/-- C10: a non-empty batch made up entirely of unknown-type events is
accepted: every event is inserted into the log, `totalEvents` grows by the
batch length, no per-category counter changes, and the stored
`integrityScore` is overwritten to 100 regardless of the session's
existing violation counters. -/
theorem C10_unknown_batch_accepted (db : DB) (sid : String)
    (events : List DetectionEvent) (s : ProctorSession) (hne : events ≠ [])
    (hunk : ∀ e ∈ events, e.eventType ∉ eventTaxonomy)
    (hs : findSession db.sessions sid = some s) :
    (postEvents db sid (.arr events)).2 = .accepted events.length 100 ∧
    (postEvents db sid (.arr events)).1.events =
      db.events ++ events.map (fun e => { e with sessionId := sid }) ∧
    findSession (postEvents db sid (.arr events)).1.sessions sid =
      some { s with totalEvents := s.totalEvents + events.length,
                    integrityScore := 100 } := by
  have ht := tallyEvents_of_unknown events hunk
  have h1 := findSession_postEvents db sid events hne
  rw [hs, Option.map_some'] at h1
  refine ⟨?_, ?_, ?_⟩
  · rw [postEvents_arr _ _ _ hne, ht]
    rfl
  · rw [postEvents_arr _ _ _ hne]
  · rw [h1, ht]
    rfl

/-- Witness for C10: a batch of two unknown-type events submitted to Bob's
completed session, whose counters are non-zero (score still overwritten to
100). -/
theorem C10_witness :
    ([exampleTalking, exampleBadEvent] ≠ ([] : List DetectionEvent)) ∧
    (∀ e ∈ [exampleTalking, exampleBadEvent],
      e.eventType ∉ eventTaxonomy) ∧
    findSession (DB.mk [completedSession] []).sessions "s2" =
      some completedSession ∧
    ((postEvents ⟨[completedSession], []⟩ "s2"
        (.arr [exampleTalking, exampleBadEvent])).2 =
      .accepted [exampleTalking, exampleBadEvent].length 100 ∧
    (postEvents ⟨[completedSession], []⟩ "s2"
        (.arr [exampleTalking, exampleBadEvent])).1.events =
      ([] : List DetectionEvent) ++
        [exampleTalking, exampleBadEvent].map
          (fun e => { e with sessionId := "s2" }) ∧
    findSession (postEvents ⟨[completedSession], []⟩ "s2"
        (.arr [exampleTalking, exampleBadEvent])).1.sessions "s2" =
      some { completedSession with
        totalEvents := completedSession.totalEvents +
          [exampleTalking, exampleBadEvent].length,
        integrityScore := 100 }) :=
  ⟨by decide, by decide, by decide,
    C10_unknown_batch_accepted ⟨[completedSession], []⟩ "s2"
      [exampleTalking, exampleBadEvent] completedSession
      (by decide) (by decide) (by decide)⟩
